import Mathlib

/-!
Verification development for the McMasterSolarCarProject/RaceStrategies core:
the physics-based interval simulator (`src/engine/interval_simulator.py`,
`src/engine/nodes.py`, `src/engine/kinematics.py`) and the optimizer layer
(`src/optimizer/common.py`, `src/optimizer/optimize_dp.py`,
`src/optimizer/optimize_main.py`).

The Python code computes with floats; the embedding works over an arbitrary
linear ordered field `K` (instantiated at `ℚ` for concrete executable runs and
at `ℝ` where the source uses `sqrt`/trigonometry).  Python `while` loops become
fuel-indexed recursion; in-place mutation of objects becomes explicit state
passing.

`src/utils/constants.py` is not part of the provided sources (only its import
sites are), so the vehicle constants are modelled as an explicit parameter
record `Consts`, and the motor-characterization model (an excluded external
collaborator per the spec) is passed as a function parameter where needed.
-/

namespace RaceStrategies

/-- Vehicle/physics constants imported from `src.utils.constants` throughout the
engine and optimizer.  Modelled from the spec: the module itself is not in the
provided sources; its members (`car_mass`, `wheel_radius`, `accel_g`,
`air_density`, `coef_drag`, `cross_section`, `coef_rr`, `num_motors`) appear
only at their use sites, so they are carried as an explicit parameter record. -/
structure Consts (K : Type) where
  car_mass : K
  wheel_radius : K
  accel_g : K
  air_density : K
  coef_drag : K
  cross_section : K
  coef_rr : K
  num_motors : K
deriving DecidableEq, Repr

variable {K : Type} [LinearOrderedField K]

/-- `P_STALL = 100` (module constant in `interval_simulator.py`; unused by the
simulation loops). -/
def P_STALL (K : Type) [LinearOrderedField K] : K := 100

/-- `MAX_TORQUE = 20` (module constant in `interval_simulator.py`). -/
def MAX_TORQUE (K : Type) [LinearOrderedField K] : K := 20

/-- `BRAKE = 1000` (module constant in `interval_simulator.py`). -/
def BRAKE (K : Type) [LinearOrderedField K] : K := 1000

/-- `Speed` (`kinematics.py`): a scalar stored in m/s; the km/h and mph views
are derived by the fixed conversion factors used at construction
(`kmph = mps * 3.6`, `mph = mps * 2.23694`). -/
structure Speed (K : Type) where
  mps : K
deriving DecidableEq, Repr

/-- `Speed.kmph`: the km/h view (`mps * 3.6`). -/
def Speed.kmph (s : Speed K) : K := s.mps * (18 / 5)

/-- `Speed.mph`: the mph view (`mps * 2.23694`). -/
def Speed.mph (s : Speed K) : K := s.mps * (223694 / 100000)

/-- `Speed(kmph=v)`: construction from km/h (`mps = kmph / 3.6`). -/
def Speed.ofKmph (v : K) : Speed K := ⟨v / (18 / 5)⟩

/-- Planar `Vec` (`kinematics.py`), as the simulator consumes it: the `x`/`y`
components.  (`Vec.mag` is `sqrt(x² + y²)`; the simulation loops only ever use
its square, `magSq` below, and the precomputed unit-vector components stored on
each segment.) -/
structure Vec (K : Type) where
  x : K
  y : K
deriving DecidableEq, Repr

/-- `Vec.mag ** 2 = x² + y²` (the square root taken in `Vec.__init__` cancels
wherever the simulator squares the magnitude, e.g. in `Fd_calc`). -/
def Vec.magSq (v : Vec K) : K := v.x ^ 2 + v.y ^ 2

/-- Vector subtraction (`Vec.__sub__`, z components ignored as `mag` is). -/
def Vec.sub (a b : Vec K) : Vec K := ⟨a.x - b.x, a.y - b.y⟩

/-- `Segment` (`nodes.py`), as consumed by the simulator and optimizer.
Geometry-derived inputs that the source computes once from the endpoint
coordinates (via `Displacement`) are carried as fields:
`dist` (3-D length `gradient.mag`), the surface-unit-vector components
`ux`/`uy` (`displacement.unit_vector()`), and the gradient direction ratios
`gradSin = gradient.sin()` and `gradCos = gradient.cos()`. -/
structure Segment (K : Type) [Zero K] where
  id : Nat := 0
  dist : K := 0
  tdist : K := 0
  speed_limit : Speed K := ⟨0⟩
  /-- `v_eff` is stored as a `Velocity`; the loops read only `v_eff.mps`. -/
  v_eff : Speed K := ⟨0⟩
  t_eff : K := 0
  ghi : K := 0
  wind : Vec K := ⟨0, 0⟩
  ux : K := 0
  uy : K := 0
  gradSin : K := 0
  gradCos : K := 0
deriving DecidableEq, Repr

instance : Inhabited (Segment K) := ⟨{}⟩

/-- `TimeNode` (`nodes.py`): a `StateNode` (segment, torque, braking force,
speed, and the derived forces/powers) plus elapsed time, distance into the
interval, acceleration and state of charge.  Defaults mirror the Python
constructor defaults. -/
structure TimeNode (K : Type) [Zero K] where
  segment : Segment K := {}
  time : K := 0
  dist : K := 0
  speed : Speed K := ⟨0⟩
  acc : K := 0
  torque : K := 0
  Fb : K := 0
  soc : K := 0
  Fm : K := 0
  Fd : K := 0
  Frr : K := 0
  Fg : K := 0
  Ft : K := 0
  P_mech : K := 0
  P_bat : K := 0
  epm : K := 0
  solar : K := 0
deriving DecidableEq, Repr

instance : Inhabited (TimeNode K) := ⟨{}⟩

/-- `StateNode.Fm_calc`: motor force = torque / wheel_radius (no motor-count
scaling in `nodes.py`). -/
def Fm_calc (C : Consts K) (n : TimeNode K) : TimeNode K :=
  { n with Fm := n.torque / C.wheel_radius }

/-- `StateNode.Fd_calc`: aerodynamic drag from the velocity
`unit_vector * initial_speed` relative to the segment wind,
`½·ρ·Cd·A·|v − wind|²`.  (The float `OverflowError` clamp in the source is a
float-overflow recovery path with no counterpart in exact arithmetic.) -/
def Fd_calc (C : Consts K) (n : TimeNode K) (initial_speed : Speed K) : TimeNode K :=
  let velocity : Vec K := ⟨n.segment.ux * initial_speed.mps, n.segment.uy * initial_speed.mps⟩
  { n with Fd := 1 / 2 * C.air_density * C.coef_drag * C.cross_section *
      (velocity.sub n.segment.wind).magSq }

/-- `StateNode.Frr_calc`: rolling resistance `Crr · m · g · cos θ`. -/
def Frr_calc (C : Consts K) (n : TimeNode K) : TimeNode K :=
  { n with Frr := C.coef_rr * C.car_mass * C.accel_g * n.segment.gradCos }

/-- `StateNode.Fg_calc`: grade force `m · g · sin θ`. -/
def Fg_calc (C : Consts K) (n : TimeNode K) : TimeNode K :=
  { n with Fg := C.car_mass * C.accel_g * n.segment.gradSin }

/-- `StateNode.Ft_calc`: net force = motor − drag − rolling − grade − braking. -/
def Ft_calc (n : TimeNode K) : TimeNode K :=
  { n with Ft := n.Fm - n.Fd - n.Frr - n.Fg - n.Fb }

/-- `StateNode.Power_calc`: mechanical power `Fm · v`; battery power
`P_mech * 0.9` (the source multiplies by the assumed 0.9 efficiency);
energy-per-meter `P_bat / v` for positive speed, else 0. -/
def Power_calc (n : TimeNode K) : TimeNode K :=
  let P_mech := n.Fm * n.speed.mps
  let P_bat := P_mech * (9 / 10)
  { n with
    P_mech := P_mech
    P_bat := P_bat
    epm := if n.speed.mps > 0 then P_bat / n.speed.mps else 0 }

/-- `StateNode.solar_energy_cal`: sets `solar = 0`. -/
def solar_energy_cal (n : TimeNode K) : TimeNode K := { n with solar := 0 }

/-- `TimeNode.solve_TimeNode`: recompute all forces from scratch from the
predecessor node's speed, then integrate one step of length `time_step`
(`acc = Ft/m`, `speed += acc·dt`, `dist += v·dt + ½·acc·dt²`) and derive the
power metrics. -/
def solve_TimeNode (C : Consts K) (n initial : TimeNode K) (time_step : K) : TimeNode K :=
  let n := Fm_calc C n
  let n := Fd_calc C n initial.speed
  let n := Frr_calc C n
  let n := Fg_calc C n
  let n := Ft_calc n
  let n := solar_energy_cal n
  let acc := n.Ft / C.car_mass
  let n := { n with
    acc := acc
    speed := ⟨initial.speed.mps + acc * time_step⟩
    dist := initial.dist + initial.speed.mps * time_step + 1 / 2 * acc * time_step ^ 2 }
  Power_calc n

/-! ## `SSInterval` (`interval_simulator.py`) -/

/-- `SSInterval`: a chain of road segments between two stop signs, together with
the state the Python object accumulates (`time_nodes` / `brakingNodes` are `[]`
until the corresponding pass has run, mirroring the `hasattr` checks). -/
structure SSInterval (K : Type) [Zero K] where
  segments : List (Segment K)
  total_dist : K
  startSpeed : Speed K
  stopSpeed : Speed K
  time_nodes : List (TimeNode K) := []
  brakingNodes : List (TimeNode K) := []
deriving DecidableEq, Repr

/-- The cumulative-`tdist` assignment performed by `SSInterval.__init__` and
re-performed by `SSInterval.__iadd__`: `tdist₀ = dist₀`,
`tdistᵢ = tdistᵢ₋₁ + distᵢ` (here threaded through `acc`, starting at 0). -/
def setTdists (acc : K) : List (Segment K) → List (Segment K)
  | [] => []
  | seg :: rest =>
    let t := acc + seg.dist
    { seg with tdist := t } :: setTdists t rest

/-- `SSInterval.__init__`: assign cumulative `tdist`s, record start/stop speeds
(both constructed from `Speed(kmph=0)`) and the total distance (the last
segment's `tdist`).  (Python indexes `segments[0]` and so requires a non-empty
list; on `[]` this model returns a degenerate empty interval.) -/
def mkSSInterval (segs : List (Segment K)) : SSInterval K :=
  let segs := setTdists 0 segs
  { segments := segs
    total_dist := ((segs.getLast?).map (·.tdist)).getD 0
    startSpeed := Speed.ofKmph 0
    stopSpeed := Speed.ofKmph 0 }

/-- `SSInterval.__iadd__`: when both intervals are simulated, append the other
interval's nodes shifted by the current final time/distance, concatenate the
segment lists, and recompute the cumulative `tdist`s and `total_dist`.  When
either is unsimulated the source prints a warning and returns `self`
unchanged. -/
def iadd (a b : SSInterval K) : SSInterval K :=
  if a.time_nodes = [] ∨ b.time_nodes = [] then a
  else
    let lastNode := a.time_nodes.getLast?.getD default
    let time_offset := lastNode.time
    let dist_offset := lastNode.dist
    let segs := setTdists 0 (a.segments ++ b.segments)
    { a with
      time_nodes := a.time_nodes ++ b.time_nodes.map
        (fun n => { n with time := n.time + time_offset, dist := n.dist + dist_offset })
      brakingNodes := a.brakingNodes ++ b.brakingNodes.map
        (fun n => { n with time := n.time + time_offset, dist := n.dist + dist_offset })
      segments := segs
      total_dist := ((segs.getLast?).map (·.tdist)).getD 0 }

/-- One step of the backward braking pass: construct
`TimeNode(segment, initial.time + TIME_STEP, Fb=BRAKE)`, solve it, and if the
speed change `|acc·dt|` exceeds `VELOCITY_STEP` re-solve with
`actual_dt = -|VELOCITY_STEP/acc|` and set the time accordingly. -/
def brakeStepNode (C : Consts K) (seg : Segment K) (st : TimeNode K) (dt dv : K) : TimeNode K :=
  let base : TimeNode K := { segment := seg, time := st.time + dt, Fb := BRAKE K }
  let cur := solve_TimeNode C base st dt
  if |cur.acc * dt| > dv then
    let actual_dt := -|dv / cur.acc|
    let cur := solve_TimeNode C base st actual_dt
    { cur with time := st.time + actual_dt }
  else cur

/-- The inner `while` of `SSInterval.simulate_braking` for one segment:
while the current node is inside the segment (`dist ≥ tdist − dist`), if its
speed is at or below the segment's `speed_limit` append a solved braking node,
else `return` from the whole braking pass (flag `true`).  Position failure
moves on to the next (earlier) segment (flag `false`).  Returns the appended
nodes, the final `initial_TimeNode`, and the early-`return` flag. -/
def brakeSegLoop (C : Consts K) (seg : Segment K) (dt dv : K) :
    TimeNode K → Nat → List (TimeNode K) × TimeNode K × Bool
  | st, 0 => ([], st, false)
  | st, fuel + 1 =>
    if st.dist ≥ seg.tdist - seg.dist then
      if st.speed.mps ≤ seg.speed_limit.mps then
        let cur := brakeStepNode C seg st dt dv
        let rest := brakeSegLoop C seg dt dv cur fuel
        (cur :: rest.1, rest.2)
      else ([], st, true)
    else ([], st, false)

/-- The outer `for segment in self.segments[::-1]` of `simulate_braking`
(the argument list is already reversed): run each segment's braking loop; an
early `return` (flag `true`) ends the whole pass. -/
def brakeAll (C : Consts K) (dt dv : K) :
    List (Segment K) → TimeNode K → Nat → List (TimeNode K)
  | [], _, _ => []
  | seg :: rest, st, fuel =>
    let r := brakeSegLoop C seg dt dv st fuel
    if r.2.2 then r.1 else r.1 ++ brakeAll C dt dv rest r.2.1 fuel

/-- `SSInterval.simulate_braking`: start from
`TimeNode(segments[-1], dist=total_dist, speed=stopSpeed)` and walk the
segments in reverse.  `dt` is the (negative) `TIME_STEP` argument, `dv` the
`VELOCITY_STEP.mps`. -/
def simulate_braking (C : Consts K) (s : SSInterval K) (dt dv : K) (fuel : Nat) :
    List (TimeNode K) :=
  let init : TimeNode K :=
    { segment := s.segments.getLast?.getD default, dist := s.total_dist, speed := s.stopSpeed }
  init :: brakeAll C dt dv s.segments.reverse init fuel

/-- The control-law branch of the forward pass: build
`TimeNode(segment, initial.time + TIME_STEP, soc=initial.soc)` and set either
the braking force (once `initial.dist` reaches the current braking node's
distance), maximum torque (while under the segment's cruise target), or the
segment's cruise-sustaining torque. -/
def forwardControl (seg : Segment K) (bn : List (TimeNode K)) (idx : Nat)
    (st : TimeNode K) (dt : K) : TimeNode K :=
  let base : TimeNode K := { segment := seg, time := st.time + dt, soc := st.soc }
  if st.dist ≥ ((bn.getD idx default).dist) then { base with Fb := BRAKE K }
  else if st.speed.mps < seg.v_eff.mps then { base with torque := MAX_TORQUE K }
  else { base with torque := seg.t_eff }

/-- One step of the forward pass: control-law node, solve with `TIME_STEP`,
and if `|acc·dt|` exceeds `VELOCITY_STEP` re-solve with
`actual_dt = |VELOCITY_STEP/acc|` and set the time accordingly. -/
def forwardStepNode (C : Consts K) (seg : Segment K) (bn : List (TimeNode K)) (idx : Nat)
    (st : TimeNode K) (dt dv : K) : TimeNode K :=
  let cur := solve_TimeNode C (forwardControl seg bn idx st dt) st dt
  if |cur.acc * dt| > dv then
    let actual_dt := |dv / cur.acc|
    let cur := solve_TimeNode C (forwardControl seg bn idx st dt) st actual_dt
    { cur with time := st.time + actual_dt }
  else cur

/-- The braking-node index advance:
`while current.speed > brakingNodes[idx].speed and idx + 1 < len: idx += 1`. -/
def advanceIdx (bn : List (TimeNode K)) (sp : K) : Nat → Nat → Nat
  | idx, 0 => idx
  | idx, fuel + 1 =>
    if sp > (bn.getD idx default).speed.mps ∧ idx + 1 < bn.length then
      advanceIdx bn sp (idx + 1) fuel
    else idx

/-- The inner `while initial_TimeNode.dist <= segment.tdist` of the forward
pass: append a solved step node, advance the braking index, and `break` (flag
`true`) once the new speed is at or below the stopping speed.  Returns the
appended nodes, the final `initial_TimeNode`, the braking index, and the break
flag. -/
def forwardSegLoop (C : Consts K) (seg : Segment K) (bn : List (TimeNode K))
    (stopSpeed dt dv : K) :
    TimeNode K → Nat → Nat → List (TimeNode K) × TimeNode K × Nat × Bool
  | st, _idx, 0 => ([], st, _idx, false)
  | st, idx, fuel + 1 =>
    if st.dist ≤ seg.tdist then
      let cur := forwardStepNode C seg bn idx st dt dv
      let idx2 := advanceIdx bn cur.speed.mps idx bn.length
      if cur.speed.mps ≤ stopSpeed then ([cur], cur, idx2, true)
      else
        let rest := forwardSegLoop C seg bn stopSpeed dt dv cur idx2 fuel
        (cur :: rest.1, rest.2)
    else ([], st, idx, false)

/-- The outer `for segment in self.segments` of the forward pass.  (A `break`
out of the inner `while` does not end this loop: Python's `break` only exits
the `while`, so the walk continues with the next segment's loop from the same
node.)  Returns all appended nodes and the final `initial_TimeNode`. -/
def forwardAll (C : Consts K) (bn : List (TimeNode K)) (stopSpeed dt dv : K) :
    List (Segment K) → TimeNode K → Nat → Nat → List (TimeNode K) × TimeNode K
  | [], st, _, _ => ([], st)
  | seg :: rest, st, idx, fuel =>
    let r := forwardSegLoop C seg bn stopSpeed dt dv st idx fuel
    let r2 := forwardAll C bn stopSpeed dt dv rest r.2.1 r.2.2.1 fuel
    (r.1 ++ r2.1, r2.2)

/-- `self.segments[-1].tdist += 20` (the explicit distance pad added to the
final segment before the forward pass). -/
def padLast : List (Segment K) → List (Segment K)
  | [] => []
  | [seg] => [{ seg with tdist := seg.tdist + 20 }]
  | seg :: rest => seg :: padLast rest

/-- `SSInterval.simulate_interval`: seed `time_nodes` with
`TimeNode(segments[0], speed=startSpeed, soc=100)`, run the backward braking
pass with `-TIME_STEP`, pad the final segment's `tdist` by 20, run the forward
pass, and finally shift every braking node's time by the final forward time.
The mutated segment list (with the pad) is part of the resulting state. -/
def simulate_interval (C : Consts K) (s : SSInterval K) (dt dv : K) (fuel : Nat) :
    SSInterval K :=
  let init : TimeNode K :=
    { segment := s.segments.headD default, speed := s.startSpeed, soc := 100 }
  let bn := simulate_braking C s (-dt) dv fuel
  let segs := padLast s.segments
  let fwd := forwardAll C bn s.stopSpeed.mps dt dv segs init 0 fuel
  { s with
    segments := segs
    time_nodes := init :: fwd.1
    brakingNodes := bn.map (fun n => { n with time := n.time + fwd.2.time }) }

/-! ## Optimizer-side helpers (`optimize_main.py`, `common.py`) -/

/-- `VelocityNode.solve_velocity` (`nodes.py`): at constant speed, compute the
force balance `Fm = Fg + Frr + Fd`, the sustaining `torque = Fm·wheel_radius`,
and compare the motor's achievable speed at that torque with the requested
speed.  Returns `(success, torque)`.  `motorSpeed` stands for
`motor.speed_from_torque` of the excluded motor-characterization collaborator
(modelled from the spec as a black-box pure function; its `.mps` view is what
the comparison reads). -/
def solve_velocity (C : Consts K) (motorSpeed : K → K) (seg : Segment K)
    (sp : Speed K) : Bool × K :=
  let n : TimeNode K := { segment := seg, speed := sp }
  let n := Fd_calc C n sp
  let n := Fg_calc C n
  let n := Frr_calc C n
  let Fm := n.Fg + n.Frr + n.Fd
  let torque := Fm * C.wheel_radius
  if motorSpeed torque < sp.mps then (false, torque) else (true, torque)

/-- `set_v_eff` (`optimize_main.py`): override `v_eff`/`t_eff` on every segment
from a per-segment km/h vector, clamping each target to the segment's speed
limit when positive and deriving `t_eff` through `solve_velocity` (0 on
failure).  (Python raises `ValueError` on a length mismatch; the zip stops at
the shorter list.) -/
def set_v_eff (C : Consts K) (motorSpeed : K → K) (segs : List (Segment K))
    (vs : List K) : List (Segment K) :=
  (segs.zip vs).map fun p =>
    let seg := p.1
    let target := if seg.speed_limit.mps > 0 then min p.2 seg.speed_limit.kmph else p.2
    let r := solve_velocity C motorSpeed seg (Speed.ofKmph target)
    { seg with
      v_eff := Speed.ofKmph target
      t_eff := if r.1 then r.2 else 0 }

/-- `simulate_interval_with_v_eff` (`optimize_main.py`): deep-copy the
interval, apply the speed profile, simulate, and return the final node's
time. -/
def simulate_interval_with_v_eff (C : Consts K) (motorSpeed : K → K)
    (s : SSInterval K) (vs : List K) (dt dv : K) (fuel : Nat) : K :=
  let trial := { s with segments := set_v_eff C motorSpeed s.segments vs }
  let trial := simulate_interval C trial dt dv fuel
  (trial.time_nodes.getLast?.getD default).time

/-! ## `simulate_single_segment` (`optimizer/common.py`) -/

/-- The per-iteration quantities computed by the loop body of
`simulate_single_segment`: control torque, forces, acceleration, the
adaptive-timestep value (`dtNominal`), the boundary-clamped timestep actually
used (`dtEff`), and the speed/distance updates.  Over `ℝ` because the
segment-boundary clamp takes a square root. -/
structure StepCalc (K : Type) where
  torque : K
  Fm : K
  Fd : K
  Frr : K
  Fg : K
  Ft : K
  acc : K
  dtNominal : K
  dtEff : K
  newSpeed : K
  newDist : K

/-- The loop body of `simulate_single_segment` (`common.py` lines 134–164):
control law (`MAX_TORQUE` below target, cruise torque at/above), force balance
with `Fm = torque/wheel_radius · num_motors` and wind-free drag
`drag_coeff · speed²`, adaptive timestep, and the don't-overshoot-the-boundary
clamp with its quadratic root solve (`dt = (-v + √(v² + 2·a·remaining))/a`,
floored at `1e-4`; linear fallback `remaining / max(v, 1e-4)` when the
discriminant is negative or `a = 0`). -/
noncomputable def singleSegCalc (C : Consts ℝ) (seg : Segment ℝ)
    (target t_eff dt_base dv_max : ℝ) (speed dist : ℝ) : StepCalc ℝ :=
  let torque := if speed < target then MAX_TORQUE ℝ else t_eff
  let Fm := torque / C.wheel_radius * C.num_motors
  let Fd := 1 / 2 * C.air_density * C.coef_drag * C.cross_section * speed * speed
  let Frr := C.coef_rr * C.car_mass * C.accel_g * seg.gradCos
  let Fg := C.car_mass * C.accel_g * seg.gradSin
  let Ft := Fm - Fd - Frr - Fg
  let acc := Ft / C.car_mass
  let dtNominal := if acc ≠ 0 ∧ |acc * dt_base| > dv_max then |dv_max / acc| else dt_base
  let d_step := speed * dtNominal + 1 / 2 * acc * dtNominal ^ 2
  let remaining := seg.dist - dist
  let dtEff :=
    if d_step > remaining ∧ speed > 0 then
      if acc ≠ 0 ∧ speed ^ 2 + 2 * acc * remaining ≥ 0 then
        max ((-speed + Real.sqrt (speed ^ 2 + 2 * acc * remaining)) / acc) (1 / 10000)
      else remaining / max speed (1 / 10000)
    else dtNominal
  { torque := torque, Fm := Fm, Fd := Fd, Frr := Frr, Fg := Fg, Ft := Ft, acc := acc
    dtNominal := dtNominal, dtEff := dtEff
    newSpeed := speed + acc * dtEff
    newDist := dist + speed * dtEff + 1 / 2 * acc * dtEff ^ 2 }

/-- Mutable loop state of `simulate_single_segment`. -/
structure SingleState where
  speed : ℝ
  dist : ℝ
  elapsed : ℝ
  energy : ℝ

/-- The bounded iteration (`for _ in range(max_steps)`) of
`simulate_single_segment`: exit with `(speed, elapsed, energy)` when the
segment is covered or the budget runs out; inside, after updating
distance/elapsed/energy, the stall check returns `(0.0, elapsed, energy)` when
the new and old speeds are non-positive **and** the maximum motor force is
below the grade force alone (`Fm_max < Fg_const`); otherwise continue with the
speed floored at 0. -/
noncomputable def simSingleLoop (C : Consts ℝ) (seg : Segment ℝ)
    (target t_eff dt_base dv_max : ℝ) : SingleState → Nat → ℝ × ℝ × ℝ
  | st, 0 => (st.speed, st.elapsed, st.energy)
  | st, fuel + 1 =>
    if st.dist ≥ seg.dist then (st.speed, st.elapsed, st.energy)
    else
      let c := singleSegCalc C seg target t_eff dt_base dv_max st.speed st.dist
      let elapsed := st.elapsed + c.dtEff
      let energy :=
        if c.newSpeed > 0 then
          st.energy + c.torque * (c.newSpeed / C.wheel_radius) * C.num_motors * (9 / 10) * c.dtEff
        else st.energy
      if c.newSpeed ≤ 0 ∧ st.speed ≤ 0 ∧
          MAX_TORQUE ℝ / C.wheel_radius * C.num_motors < c.Fg then
        (0, elapsed, energy)
      else
        simSingleLoop C seg target t_eff dt_base dv_max
          ⟨max 0 c.newSpeed, c.newDist, elapsed, energy⟩ fuel

/-- `simulate_single_segment` (`common.py`): clamp the km/h target to the speed
limit (in m/s), derive the cruise torque through `solve_velocity` (0 on
failure), and run the time-stepping loop from `(entry_speed, 0, 0, 0)`. -/
noncomputable def simulate_single_segment (C : Consts ℝ) (motorSpeed : ℝ → ℝ)
    (seg : Segment ℝ) (entry_speed_mps v_eff_kmph dt_base dv_max : ℝ)
    (max_steps : Nat) : ℝ × ℝ × ℝ :=
  let target :=
    if seg.speed_limit.mps > 0 then min (v_eff_kmph / (18 / 5)) seg.speed_limit.mps
    else v_eff_kmph / (18 / 5)
  let r := solve_velocity C motorSpeed seg ⟨target⟩
  let t_eff := if r.1 then r.2 else 0
  simSingleLoop C seg target t_eff dt_base dv_max ⟨entry_speed_mps, 0, 0, 0⟩ max_steps

/-! ## Bounds and action grids (`common.py` `build_bounds`,
`optimize_dp.py` per-segment action grids) -/

section Grids

variable [FloorRing K]

/-- `np.arange(lo, stop, step)` for positive `step`: the
`⌈(stop − lo)/step⌉` values `lo, lo + step, …` below `stop`. -/
def arange (lo stop step : K) : List K :=
  (List.range (max 0 ⌈(stop - lo) / step⌉).toNat).map fun i : ℕ => lo + (i : K) * step

end Grids

/-- `build_bounds` (`common.py`): per-segment `(min, max)` km/h bounds; when
the segment has a positive speed limit the upper bound is clamped to it and
the lower bound is then clamped to the (possibly lower) upper bound. -/
def build_bounds (segs : List (Segment K)) (v_min v_max : K) : List (K × K) :=
  segs.map fun seg =>
    if seg.speed_limit.mps > 0 then
      let hi := min v_max seg.speed_limit.kmph
      (min v_min hi, hi)
    else (v_min, v_max)

/-- The per-segment action grids of `optimize_dp` (lines 109–117): the same
clamping as `build_bounds`, then `np.arange(lo, hi + resolution·0.5,
resolution)`. -/
def per_seg_actions [FloorRing K] (segs : List (Segment K))
    (v_min v_max res : K) : List (List K) :=
  segs.map fun seg =>
    if seg.speed_limit.mps > 0 then
      let hi := min v_max seg.speed_limit.kmph
      arange (min v_min hi) (hi + res * (1 / 2)) res
    else arange v_min (v_max + res * (1 / 2)) res

/-! ## Geodesy (`kinematics.py` `Displacement.enu_vector`) -/

/-- `Coordinate` (`kinematics.py`): latitude/longitude in degrees plus
elevation. -/
structure Coordinate where
  lat : ℝ
  lon : ℝ
  elevation : ℝ

/-- `math.radians`. -/
noncomputable def radians (deg : ℝ) : ℝ := deg * Real.pi / 180

/-- `math.degrees`. -/
noncomputable def degrees (rad : ℝ) : ℝ := rad * 180 / Real.pi

/-- `math.atan2(y, x)`: the quadrant-aware arctangent, valued in `(-π, π]`. -/
noncomputable def atan2 (y x : ℝ) : ℝ :=
  if 0 < x then Real.arctan (y / x)
  else if x < 0 ∧ 0 ≤ y then Real.arctan (y / x) + Real.pi
  else if x < 0 then Real.arctan (y / x) - Real.pi
  else if 0 < y then Real.pi / 2
  else if y < 0 then -(Real.pi / 2)
  else 0

/-- Python's `%` on reals with a positive modulus: `x - m·⌊x/m⌋` (the result
carries the sign of the divisor). -/
noncomputable def pymod (x m : ℝ) : ℝ := x - m * ⌊x / m⌋

/-- The azimuth computed in `Displacement.enu_vector`:
`degrees(atan2(sin Δλ · cos φ₂, cos φ₁ · sin φ₂ − sin φ₁ · cos φ₂ · cos Δλ)) % 360`. -/
noncomputable def azimuth (p1 p2 : Coordinate) : ℝ :=
  let lat1 := radians p1.lat
  let lon1 := radians p1.lon
  let lat2 := radians p2.lat
  let lon2 := radians p2.lon
  let dlon := lon2 - lon1
  pymod
    (degrees (atan2 (Real.sin dlon * Real.cos lat2)
      (Real.cos lat1 * Real.sin lat2 - Real.sin lat1 * Real.cos lat2 * Real.cos dlon)))
    360

/-! ## `TimeNode.__getattr__` (`nodes.py`) -/

/-- The attributes a `TimeNode` actually defines (set in
`StateNode.__init__` / `TimeNode.__init__`); any other name reaches
`TimeNode.__getattr__`. -/
def TimeNode.definedAttrs : List String :=
  ["segment", "torque", "Fb", "speed", "Fm", "Fd", "Frr", "Fg", "Ft",
   "P_mech", "P_bat", "epm", "solar", "time", "dist", "acc", "soc"]

/-- `TimeNode.__getattr__`: invoked only for missing attributes; returns the
sentinel `default = -10` for every name (its docstring claims 0). -/
def TimeNode.getattrMissing (K : Type) [LinearOrderedField K] (_name : String) : K := -10

/-- Numeric attribute access on a `TimeNode` as Python's attribute protocol
resolves it: a defined attribute yields its stored value, anything else falls
through to `TimeNode.__getattr__`.  (`segment` and `speed` are defined
attributes holding objects, not numbers; they are listed in `definedAttrs`, so
they never reach `__getattr__`, and this numeric view does not cover them.) -/
def TimeNode.getattrOr (n : TimeNode K) (name : String) : K :=
  if name = "torque" then n.torque
  else if name = "Fb" then n.Fb
  else if name = "Fm" then n.Fm
  else if name = "Fd" then n.Fd
  else if name = "Frr" then n.Frr
  else if name = "Fg" then n.Fg
  else if name = "Ft" then n.Ft
  else if name = "P_mech" then n.P_mech
  else if name = "P_bat" then n.P_bat
  else if name = "epm" then n.epm
  else if name = "solar" then n.solar
  else if name = "time" then n.time
  else if name = "dist" then n.dist
  else if name = "acc" then n.acc
  else if name = "soc" then n.soc
  else TimeNode.getattrMissing K name

/-! ## Concrete evaluation fixtures (over `ℚ`) -/

/-- Concrete constants for the executable runs: mass 1000 kg, wheel radius
1 m, g = 10 m/s², no aerodynamic drag, no rolling resistance, one motor. -/
def Cq : Consts ℚ := ⟨1000, 1, 10, 0, 0, 1, 0, 1⟩

/-- `Cq` with rolling-resistance coefficient 1/100 (`Frr = 100 N` on flat
ground). -/
def CqRR : Consts ℚ := { Cq with coef_rr := 1 / 100 }

/-- A flat, eastward 1 m segment with a 10 m/s speed limit and a zero cruise
target (`v_eff.mps = 0`, `t_eff = 0`). -/
def segFlat : Segment ℚ :=
  { dist := 1, speed_limit := ⟨10⟩, ux := 1, uy := 0, gradSin := 0, gradCos := 1 }

/-- The one-segment interval over `segFlat`. -/
def intervalFlat : SSInterval ℚ := mkSSInterval [segFlat]

/-- A two-segment interval over `segFlat`. -/
def intervalFlat2 : SSInterval ℚ := mkSSInterval [segFlat, segFlat]

/-- `intervalFlat` after one `simulate_interval` run. -/
def intervalFlatSim : SSInterval ℚ := simulate_interval Cq intervalFlat (1 / 10) 1000 100

/-- `intervalFlat` with junk trajectory fields (a deep copy transports these,
but `simulate_interval` overwrites them wholesale). -/
def intervalFlatJunk : SSInterval ℚ :=
  { intervalFlat with time_nodes := [default], brakingNodes := [default] }

/-- A node already above `segFlat`'s 10 m/s speed limit (and inside the
segment), feeding the braking-gate witness. -/
def stFast : TimeNode ℚ := { speed := ⟨11⟩, dist := 1 }

/-- A segment whose posted limit (10 km/h) is below the optimizer's global
minimum speed of 20 km/h. -/
def segLim10 : Segment ℚ := { dist := 1, speed_limit := Speed.ofKmph 10 }

/-- A node with motor force 5 N at 2 m/s, feeding the `Power_calc` results. -/
def nodeC8 : TimeNode ℚ := { Fm := 5, speed := ⟨2⟩ }

/-- Constants for the stall run: mass 100 kg, wheel radius 1 m, g = 10,
no drag, `coef_rr = 1` — so `Frr = 1000 N` on flat ground while the maximum
motor force is `MAX_TORQUE/wheel_radius·num_motors = 20 N` and the grade force
is 0. -/
def C2c : Consts ℝ := ⟨100, 1, 10, 0, 0, 1, 1, 1⟩

/-- A flat 50 m segment (no speed limit) for the stall run. -/
def seg2c : Segment ℝ := { dist := 50, ux := 1, gradCos := 1 }

/-- Constants with nonzero drag (`½·ρ·Cd·A = 1`) for the step-comparison
counterexample. -/
def CR : Consts ℝ := ⟨1000, 1, 10, 2, 1, 1, 0, 1⟩

/-- Drag-free constants for the step-comparison witness. -/
def CR0 : Consts ℝ := ⟨1000, 1, 10, 0, 0, 1, 0, 1⟩

/-- A flat eastward segment with a 1 m/s eastward wind and a 10 m/s cruise
target. -/
def segWind : Segment ℝ :=
  { dist := 100, v_eff := ⟨10⟩, wind := ⟨1, 0⟩, ux := 1, uy := 0, gradSin := 0, gradCos := 1 }

/-- `segWind` without the wind. -/
def segNoWind : Segment ℝ :=
  { dist := 100, v_eff := ⟨10⟩, ux := 1, uy := 0, gradSin := 0, gradCos := 1 }

/-- A braking envelope whose next node is far away (so the forward control law
stays in its torque branches). -/
def bnFar : List (TimeNode ℝ) := [{ dist := 1000 }]

/-- A forward state at 2 m/s at the start of the interval. -/
def stC3 : TimeNode ℝ := { speed := ⟨2⟩ }

/-- The cumulative sums `acc+d₀, acc+d₀+d₁, …` of a list of segment lengths
(the specification's reading of the `tdist` assignment). -/
def cumsum (acc : K) : List K → List K
  | [] => []
  | d :: rest => (acc + d) :: cumsum (acc + d) rest

/-- Add `c` to the last entry of a list (the effect of the 20 m pad on the
`tdist` column). -/
def bumpLast (c : K) : List K → List K
  | [] => []
  | [x] => [x + c]
  | x :: rest => x :: bumpLast c rest

/-- The step relation every consecutive pair of forward `time_nodes`
satisfies: the successor's time exceeds the predecessor's by some positive
effective timestep `d`, and its distance is the predecessor's advanced by
`v·d + ½·a·d²` (the exact integration update of `solve_TimeNode`). -/
def stepRel (a b : TimeNode K) : Prop :=
  ∃ d, 0 < d ∧ b.time = a.time + d ∧
    b.dist = a.dist + a.speed.mps * d + 1 / 2 * b.acc * d ^ 2

/-! ## Theorems -/

section ConcreteEvaluation

/- `Batteries` marks the `Rat` field operations `@[irreducible]`; the concrete
counterexample/witness runs below evaluate them through `decide`, which needs
them reducible in this file. -/
attribute [local semireducible] Rat.add Rat.mul Rat.inv Rat.sub

/-- Bounds of the Python float `%` with a positive modulus. -/
theorem pymod_nonneg_lt (x m : ℝ) (hm : 0 < m) : 0 ≤ pymod x m ∧ pymod x m < m := by
  have hfl : (⌊x / m⌋ : ℝ) ≤ x / m := Int.floor_le _
  have hfu : x / m < ⌊x / m⌋ + 1 := Int.lt_floor_add_one _
  have hx : m * (x / m) = x := by field_simp
  constructor
  · have h1 : m * (⌊x / m⌋ : ℝ) ≤ m * (x / m) := by
      exact mul_le_mul_of_nonneg_left hfl hm.le
    unfold pymod
    linarith
  · have h2 : m * (x / m) < m * ((⌊x / m⌋ : ℝ) + 1) := by
      exact mul_lt_mul_of_pos_left hfu hm
    unfold pymod
    nlinarith

/-- C9: for every pair of coordinates, the azimuth computed by
`Displacement.enu_vector` — `degrees(atan2(…)) % 360` — lies in the half-open
range [0, 360): it is at least 0 and strictly less than 360. -/
theorem azimuth_mem_Ico (p1 p2 : Coordinate) :
    0 ≤ azimuth p1 p2 ∧ azimuth p1 p2 < 360 := by
  simp only [azimuth]
  exact pymod_nonneg_lt _ 360 (by norm_num)

/-- C10: accessing an attribute name not defined on a `TimeNode` never fails:
`TimeNode.__getattr__` returns the sentinel `-10` for every missing name
(despite its docstring claiming 0), so a consumer reading a misspelled or
absent metric silently receives `-10`. -/
theorem getattr_missing_neg10 (name : String) (h : name ∉ TimeNode.definedAttrs) :
    (∀ n : TimeNode ℚ, TimeNode.getattrOr n name = -10) ∧
    TimeNode.getattrMissing ℚ name = -10 ∧ TimeNode.getattrMissing ℚ name ≠ 0 := by
  simp only [TimeNode.definedAttrs, List.mem_cons, List.not_mem_nil, or_false, not_or] at h
  obtain ⟨h1, h2, h3, h4, h5, h6, h7, h8, h9, h10, h11, h12, h13, h14, h15, h16, h17⟩ := h
  refine ⟨fun n => ?_, rfl, by norm_num [TimeNode.getattrMissing]⟩
  simp [TimeNode.getattrOr, TimeNode.getattrMissing,
    h2, h3, h5, h6, h7, h8, h9, h10, h11, h12, h13, h14, h15, h16, h17]

/-- Witness for C10 at the misspelled metric name `"velocity"`. -/
theorem getattr_missing_neg10_w :
    (∀ n : TimeNode ℚ, TimeNode.getattrOr n "velocity" = -10) ∧
    TimeNode.getattrMissing ℚ "velocity" = -10 ∧ TimeNode.getattrMissing ℚ "velocity" ≠ 0 :=
  getattr_missing_neg10 "velocity" (by decide)

/-- C8 counterexample: with motor force 5 N at 2 m/s, `Power_calc` yields
`P_mech = 10 W` and `P_bat = 9 W`: battery power is `P_mech · 0.9`, not
`P_mech / 0.9 ≈ 11.1 W`, and it does not exceed the mechanical power. -/
theorem Power_calc_efficiency_cx :
    (Power_calc nodeC8).P_mech = 10 ∧ (Power_calc nodeC8).P_bat = 9 ∧
    (Power_calc nodeC8).P_bat ≠ (Power_calc nodeC8).P_mech / (9 / 10) ∧
    ¬ (Power_calc nodeC8).P_mech < (Power_calc nodeC8).P_bat := by decide

/-- C8 (amended): after `Power_calc`, battery power equals mechanical power
multiplied by the assumed 0.9 drivetrain efficiency (so battery power is
strictly less than mechanical power when the latter is positive), and
energy-per-meter equals battery power divided by speed, with the zero-speed
(and negative-speed) case defined as 0 rather than failing. -/
theorem Power_calc_spec (n : TimeNode K) :
    (Power_calc n).P_mech = n.Fm * n.speed.mps ∧
    (Power_calc n).P_bat = (Power_calc n).P_mech * (9 / 10) ∧
    (0 < (Power_calc n).P_mech → (Power_calc n).P_bat < (Power_calc n).P_mech) ∧
    (0 < n.speed.mps → (Power_calc n).epm = (Power_calc n).P_bat / n.speed.mps) ∧
    (¬ 0 < n.speed.mps → (Power_calc n).epm = 0) := by
  refine ⟨rfl, rfl, fun h => ?_, fun h => ?_, fun h => ?_⟩
  · have : (Power_calc n).P_bat = (Power_calc n).P_mech * (9 / 10) := rfl
    nlinarith
  · simp only [Power_calc, h, if_pos]
  · simp only [Power_calc, if_neg h]

/-- Witness for C8 at `nodeC8` (motor force 5 N, speed 2 m/s). -/
theorem Power_calc_spec_w :
    (Power_calc nodeC8).P_bat < (Power_calc nodeC8).P_mech ∧
    (Power_calc nodeC8).epm = (Power_calc nodeC8).P_bat / nodeC8.speed.mps :=
  ⟨(Power_calc_spec nodeC8).2.2.1 (by decide), (Power_calc_spec nodeC8).2.2.2.1 (by decide)⟩

/-- C1 counterexample: on an interval whose segment has cruise target
`v_eff = 0` but speed limit 10 m/s, the braking pass appends a node (the run
has 16 nodes) even though the current speed at the first append, 0 m/s, is not
below the segment's cruise target — the gate actually tested is the posted
speed limit. -/
theorem simulate_braking_veff_gate_cx :
    2 ≤ (simulate_braking Cq intervalFlat (-(1 / 10)) 1000 100).length ∧
    ¬ ((simulate_braking Cq intervalFlat (-(1 / 10)) 1000 100).getD 0 default).speed.mps
        < segFlat.v_eff.mps := by decide

/-- C4 counterexample: calling `simulate_interval` a second time on the same
interval object yields a different `brakingNodes` trajectory (1 node instead
of 16), because the first call permanently added the 20 m pad to the final
segment's `tdist`. -/
theorem simulate_interval_repeat_cx :
    (simulate_interval Cq intervalFlatSim (1 / 10) 1000 100).brakingNodes.length = 1 ∧
    intervalFlatSim.brakingNodes.length = 16 ∧
    (simulate_interval Cq intervalFlatSim (1 / 10) 1000 100).brakingNodes
      ≠ intervalFlatSim.brakingNodes := by decide

/-- C5 counterexample: after `simulate_interval` on a two-segment interval of
lengths 1 and 1, the `tdist` column is `[1, 22]` while the cumulative sums of
the segment lengths are `[1, 2]` — the final segment keeps the 20 m pad. -/
theorem tdist_post_sim_cx :
    (simulate_interval Cq intervalFlat2 (1 / 10) 1000 100).segments.map (·.tdist) = [1, 22] ∧
    cumsum 0 ((simulate_interval Cq intervalFlat2 (1 / 10) 1000 100).segments.map (·.dist))
      = [1, 2] ∧
    (simulate_interval Cq intervalFlat2 (1 / 10) 1000 100).segments.map (·.tdist)
      ≠ cumsum 0 ((simulate_interval Cq intervalFlat2 (1 / 10) 1000 100).segments.map (·.dist)) := by
  decide

/-- C6 counterexample: with a zero cruise target and torque on flat ground and
rolling resistance present, the first forward step of `simulate_interval` has
negative net force at rest, so the second time node's `dist` (−1/2000 m) is
strictly below the first node's (0 m): `dist` is not non-decreasing. -/
theorem time_nodes_dist_decreasing_cx :
    ((simulate_interval CqRR intervalFlat (1 / 10) 1000 100).time_nodes.getD 1 default).dist
      < ((simulate_interval CqRR intervalFlat (1 / 10) 1000 100).time_nodes.getD 0 default).dist ∧
    2 ≤ (simulate_interval CqRR intervalFlat (1 / 10) 1000 100).time_nodes.length := by decide

/-- C7 counterexample: for a segment whose posted limit is 10 km/h and global
bounds [20, 100] km/h, `build_bounds` returns `(10, 10)` and the DP action
grid is `[10]`: the accepted candidate entry 10 km/h is **below** the global
minimum `v_min = 20`, and the claimed interval `[v_min, min(v_max, limit)]`
contains no such entry. -/
theorem bounds_below_vmin_cx :
    build_bounds [segLim10] (20 : ℚ) 100 = [(10, 10)] ∧
    (per_seg_actions [segLim10] (20 : ℚ) 100 2).getD 0 [] = [10] ∧
    ¬ ∀ xs ∈ per_seg_actions [segLim10] (20 : ℚ) 100 2, ∀ x ∈ xs,
        20 ≤ x ∧ x ≤ min 100 segLim10.speed_limit.kmph := by decide

/-- C1 (amended): in the backward braking pass, walking the segments in
reverse, a new braking node is appended only while the current node is inside
the segment (`dist ≥ tdist − dist`) **and** its speed is at or below the
segment's posted `speed_limit` (not its cruise target `v_eff`); as soon as the
speed exceeds the limit the loop appends nothing, signals the early return,
and the outer reverse walk then appends nothing for any earlier segment. -/
theorem simulate_braking_gate (C : Consts K) (seg : Segment K) (dt dv : K)
    (st : TimeNode K) (fuel : Nat) :
    List.Chain'
      (fun a _ => seg.tdist - seg.dist ≤ a.dist ∧ a.speed.mps ≤ seg.speed_limit.mps)
      (st :: (brakeSegLoop C seg dt dv st fuel).1) ∧
    (seg.speed_limit.mps < st.speed.mps → seg.tdist - seg.dist ≤ st.dist →
      brakeSegLoop C seg dt dv st (fuel + 1) = ([], st, true)) ∧
    (∀ segs : List (Segment K), (brakeSegLoop C seg dt dv st fuel).2.2 = true →
      brakeAll C dt dv (seg :: segs) st fuel = (brakeSegLoop C seg dt dv st fuel).1) := by
  refine ⟨?_, fun hsp hpos => ?_, fun segs hstop => ?_⟩
  · induction fuel generalizing st with
    | zero => exact List.chain'_singleton st
    | succ n ih =>
      by_cases h1 : st.dist ≥ seg.tdist - seg.dist
      · by_cases h2 : st.speed.mps ≤ seg.speed_limit.mps
        · simp only [brakeSegLoop, if_pos h1, if_pos h2]
          exact List.chain'_cons.mpr ⟨⟨h1, h2⟩, ih _⟩
        · simp only [brakeSegLoop, if_pos h1, if_neg h2]
          exact List.chain'_singleton st
      · simp only [brakeSegLoop, if_neg h1]
        exact List.chain'_singleton st
  · simp only [brakeSegLoop, if_pos hpos, if_neg (not_le.mpr hsp)]
  · simp only [brakeAll, hstop, if_pos]

/-- Witness for C1 at a concrete gate failure: a node at 11 m/s on `segFlat`
(limit 10 m/s) makes the braking loop append nothing and abort the pass. -/
theorem simulate_braking_gate_w :
    brakeSegLoop Cq segFlat (-(1 / 10)) 1000 stFast 5 = ([], stFast, true) ∧
    brakeAll Cq (-(1 / 10)) 1000 [segFlat] stFast 5 = [] := by
  have h1 := (simulate_braking_gate Cq segFlat (-(1 / 10)) 1000 stFast 4).2.1
    (by decide) (by decide)
  have h2 := (simulate_braking_gate Cq segFlat (-(1 / 10)) 1000 stFast 5).2.2 []
    (by rw [h1])
  refine ⟨h1, ?_⟩
  rw [h2, h1]

/-- The `tdist` column written by `setTdists` is the cumulative-sum list of
the segment lengths. -/
theorem setTdists_map_tdist (l : List (Segment K)) (acc : K) :
    (setTdists acc l).map (·.tdist) = cumsum acc (l.map (·.dist)) := by
  induction l generalizing acc with
  | nil => rfl
  | cons seg rest ih => simp [setTdists, cumsum, ih]

/-- `setTdists` does not change the segment lengths. -/
theorem setTdists_map_dist (l : List (Segment K)) (acc : K) :
    (setTdists acc l).map (·.dist) = l.map (·.dist) := by
  induction l generalizing acc with
  | nil => rfl
  | cons seg rest ih => simp [setTdists, ih]

/-- The 20 m pad bumps exactly the last entry of the `tdist` column. -/
theorem padLast_map_tdist (l : List (Segment K)) :
    (padLast l).map (·.tdist) = bumpLast 20 (l.map (·.tdist)) := by
  induction l with
  | nil => rfl
  | cons seg rest ih =>
    cases rest with
    | nil => rfl
    | cons b t => simpa [padLast, bumpLast] using ih

/-- `simulate_interval` changes the segment list exactly by the 20 m pad on
the last segment. -/
theorem simulate_interval_segments (C : Consts K) (s : SSInterval K) (dt dv : K)
    (fuel : Nat) :
    (simulate_interval C s dt dv fuel).segments = padLast s.segments := rfl

/-- The first cumulative sum exceeds the accumulator when all lengths are
positive. -/
theorem cumsum_head_lt (l : List K) (a : K) (h : ∀ d ∈ l, 0 < d) :
    ∀ y ∈ (cumsum a l).head?, a < y := by
  cases l with
  | nil => simp [cumsum]
  | cons d rest =>
    intro y hy
    simp only [cumsum, List.head?_cons, Option.mem_def, Option.some.injEq] at hy
    have hd := h d (List.mem_cons_self d rest)
    linarith [hy, hd]

/-- Cumulative sums of positive lengths are strictly increasing. -/
theorem cumsum_chain_lt (l : List K) (a : K) (h : ∀ d ∈ l, 0 < d) :
    List.Chain' (· < ·) (cumsum a l) := by
  induction l generalizing a with
  | nil => exact List.chain'_nil
  | cons d rest ih =>
    simp only [cumsum]
    exact List.Chain'.cons'
      (ih (a + d) fun x hx => h x (List.mem_cons_of_mem _ hx))
      (cumsum_head_lt rest (a + d) fun x hx => h x (List.mem_cons_of_mem _ hx))

/-- C5 (amended): after construction (`__init__`) and after concatenation
(`__iadd__`), the segments' `tdist` values equal the cumulative sums of the
segment lengths (strictly increasing whenever every length is positive); but
after `simulate_interval` completes the `tdist` column is the previous column
with 20 added to its last entry — the final segment's pad survives. -/
theorem tdist_cumsum_spec (C : Consts K) (dt dv : K) (fuel : Nat) :
    (∀ segs : List (Segment K),
      (mkSSInterval segs).segments.map (·.tdist) = cumsum 0 (segs.map (·.dist))) ∧
    (∀ a b : SSInterval K, a.time_nodes ≠ [] → b.time_nodes ≠ [] →
      (iadd a b).segments.map (·.tdist)
        = cumsum 0 ((a.segments ++ b.segments).map (·.dist))) ∧
    (∀ s : SSInterval K,
      (simulate_interval C s dt dv fuel).segments.map (·.tdist)
        = bumpLast 20 (s.segments.map (·.tdist))) ∧
    (∀ (l : List K) (acc : K), (∀ d ∈ l, 0 < d) → List.Chain' (· < ·) (cumsum acc l)) := by
  refine ⟨fun segs => ?_, fun a b ha hb => ?_, fun s => ?_, cumsum_chain_lt⟩
  · simpa [mkSSInterval] using setTdists_map_tdist segs 0
  · have hiadd : (iadd a b).segments = setTdists 0 (a.segments ++ b.segments) := by
      simp [iadd, ha, hb]
    rw [hiadd, setTdists_map_tdist]
  · rw [simulate_interval_segments, padLast_map_tdist]

/-- Witness for C5: on the simulated one-segment interval, concatenation with
itself restores exact cumulative sums, and the cumulative sums of positive
lengths `[1, 2]` are strictly increasing. -/
theorem tdist_cumsum_spec_w :
    (iadd intervalFlatSim intervalFlatSim).segments.map (·.tdist)
      = cumsum 0 ((intervalFlatSim.segments ++ intervalFlatSim.segments).map (·.dist)) ∧
    List.Chain' (· < ·) (cumsum (0 : ℚ) [1, 2]) :=
  ⟨(tdist_cumsum_spec Cq (1 / 10) 1000 100).2.1 intervalFlatSim intervalFlatSim
      (by decide) (by decide),
    (tdist_cumsum_spec Cq (1 / 10) 1000 100).2.2.2 [1, 2] 0 (by decide)⟩

/-- C4 (amended): `simulate_interval_with_v_eff` (deep copy + `set_v_eff` +
`simulate_interval`) is a function of the interval's segment list, total
distance and start/stop speeds alone — the trajectory fields of the copy are
overwritten wholesale — so repeated evaluations against the same pristine
interval (fixed segment list, fixed speed vector, fixed timestep) return
identical results.  (Direct repeated calls of `simulate_interval` on one
object are *not* identical: each call pads the final segment's `tdist` by
20 m, see the counterexample.) -/
theorem wrapper_run_deterministic (C : Consts K) (ms : K → K) (s1 s2 : SSInterval K)
    (vs : List K) (dt dv : K) (fuel : Nat)
    (hseg : s1.segments = s2.segments) (htot : s1.total_dist = s2.total_dist)
    (hstart : s1.startSpeed = s2.startSpeed) (hstop : s1.stopSpeed = s2.stopSpeed) :
    simulate_interval_with_v_eff C ms s1 vs dt dv fuel
      = simulate_interval_with_v_eff C ms s2 vs dt dv fuel := by
  cases s1
  cases s2
  simp only at hseg htot hstart hstop
  subst hseg htot hstart hstop
  rfl

/-- Witness for C4: two intervals sharing segments/distances/speeds but with
different (junk) trajectory fields give the same wrapper result. -/
theorem wrapper_run_deterministic_w :
    simulate_interval_with_v_eff Cq (fun _ => 1000) intervalFlat [0] (1 / 10) 1000 20
      = simulate_interval_with_v_eff Cq (fun _ => 1000) intervalFlatJunk [0] (1 / 10) 1000 20 :=
  wrapper_run_deterministic Cq (fun _ => 1000) intervalFlat intervalFlatJunk
    [0] (1 / 10) 1000 20 rfl rfl rfl rfl

/-- Defining equation of `Fm_calc` as a record update. -/
theorem Fm_calc_def (C : Consts K) (n : TimeNode K) :
    Fm_calc C n = { n with Fm := n.torque / C.wheel_radius } := rfl

/-- Defining equation of `Fd_calc` as a record update. -/
theorem Fd_calc_def (C : Consts K) (n : TimeNode K) (sp : Speed K) :
    Fd_calc C n sp = { n with Fd := 1 / 2 * C.air_density * C.coef_drag * C.cross_section *
      ((Vec.sub ⟨n.segment.ux * sp.mps, n.segment.uy * sp.mps⟩ n.segment.wind).magSq) } := rfl

/-- Defining equation of `Frr_calc` as a record update. -/
theorem Frr_calc_def (C : Consts K) (n : TimeNode K) :
    Frr_calc C n = { n with Frr := C.coef_rr * C.car_mass * C.accel_g * n.segment.gradCos } := rfl

/-- Defining equation of `Fg_calc` as a record update. -/
theorem Fg_calc_def (C : Consts K) (n : TimeNode K) :
    Fg_calc C n = { n with Fg := C.car_mass * C.accel_g * n.segment.gradSin } := rfl

/-- Defining equation of `Ft_calc` as a record update. -/
theorem Ft_calc_def (n : TimeNode K) :
    Ft_calc n = { n with Ft := n.Fm - n.Fd - n.Frr - n.Fg - n.Fb } := rfl

/-- Defining equation of `solar_energy_cal` as a record update. -/
theorem solar_energy_cal_def (n : TimeNode K) :
    solar_energy_cal n = { n with solar := 0 } := rfl

/-- Defining equation of `Power_calc` as a record update. -/
theorem Power_calc_def (n : TimeNode K) :
    Power_calc n = { n with
      P_mech := n.Fm * n.speed.mps
      P_bat := n.Fm * n.speed.mps * (9 / 10)
      epm := if n.speed.mps > 0 then n.Fm * n.speed.mps * (9 / 10) / n.speed.mps else 0 } := rfl

/-- The control-law node carries the nominal time `initial.time + TIME_STEP`. -/
theorem forwardControl_time (seg : Segment K) (bn : List (TimeNode K)) (idx : Nat)
    (st : TimeNode K) (dt : K) : (forwardControl seg bn idx st dt).time = st.time + dt := by
  unfold forwardControl
  split_ifs <;> rfl

/-- `solve_TimeNode` leaves the node's time untouched. -/
theorem solve_TimeNode_time (C : Consts K) (n initial : TimeNode K) (dt : K) :
    (solve_TimeNode C n initial dt).time = n.time := by
  simp [solve_TimeNode, Fm_calc_def, Fd_calc_def, Frr_calc_def, Fg_calc_def, Ft_calc_def,
    solar_energy_cal_def, Power_calc_def]

/-- The distance update of `solve_TimeNode` is exactly
`initial.dist + v·dt + ½·acc·dt²`. -/
theorem solve_TimeNode_dist (C : Consts K) (n initial : TimeNode K) (dt : K) :
    (solve_TimeNode C n initial dt).dist
      = initial.dist + initial.speed.mps * dt
        + 1 / 2 * (solve_TimeNode C n initial dt).acc * dt ^ 2 := by
  simp [solve_TimeNode, Fm_calc_def, Fd_calc_def, Frr_calc_def, Fg_calc_def, Ft_calc_def,
    solar_energy_cal_def, Power_calc_def]

/-- Every forward step node relates to its predecessor by `stepRel`: the
effective timestep is `TIME_STEP`, or `|VELOCITY_STEP/acc|` when the adaptive
clamp fires, and is positive either way. -/
theorem forwardStepNode_rel (C : Consts K) (seg : Segment K) (bn : List (TimeNode K))
    (idx : Nat) (st : TimeNode K) (dt dv : K) (hdt : 0 < dt) (hdv : 0 < dv) :
    stepRel st (forwardStepNode C seg bn idx st dt dv) := by
  unfold forwardStepNode
  by_cases h : |(solve_TimeNode C (forwardControl seg bn idx st dt) st dt).acc * dt| > dv
  · rw [if_pos h]
    set a := (solve_TimeNode C (forwardControl seg bn idx st dt) st dt).acc with ha
    have hane : a ≠ 0 := by
      intro h0
      rw [h0, zero_mul, abs_zero] at h
      exact absurd h (not_lt.mpr hdv.le)
    exact ⟨|dv / a|, abs_pos.mpr (div_ne_zero hdv.ne' hane), rfl,
      solve_TimeNode_dist C _ st _⟩
  · rw [if_neg h]
    refine ⟨dt, hdt, ?_, solve_TimeNode_dist C _ st dt⟩
    rw [solve_TimeNode_time, forwardControl_time]

/-- Invariant of the inner forward loop: the appended nodes extend the current
node as a `stepRel` chain, and the returned node is the chain's last
element. -/
theorem forwardSegLoop_chain (C : Consts K) (seg : Segment K) (bn : List (TimeNode K))
    (stopSpeed dt dv : K) (hdt : 0 < dt) (hdv : 0 < dv) :
    ∀ (fuel : Nat) (st : TimeNode K) (idx : Nat),
      List.Chain' stepRel (st :: (forwardSegLoop C seg bn stopSpeed dt dv st idx fuel).1) ∧
      (st :: (forwardSegLoop C seg bn stopSpeed dt dv st idx fuel).1).getLast?
        = some (forwardSegLoop C seg bn stopSpeed dt dv st idx fuel).2.1 := by
  intro fuel
  induction fuel with
  | zero =>
    intro st idx
    exact ⟨List.chain'_singleton st, rfl⟩
  | succ n ih =>
    intro st idx
    by_cases h1 : st.dist ≤ seg.tdist
    · by_cases h2 : (forwardStepNode C seg bn idx st dt dv).speed.mps ≤ stopSpeed
      · simp only [forwardSegLoop, if_pos h1, if_pos h2]
        exact ⟨List.chain'_cons.mpr
          ⟨forwardStepNode_rel C seg bn idx st dt dv hdt hdv, List.chain'_singleton _⟩, rfl⟩
      · simp only [forwardSegLoop, if_pos h1, if_neg h2]
        obtain ⟨hc, hl⟩ := ih (forwardStepNode C seg bn idx st dt dv)
          (advanceIdx bn (forwardStepNode C seg bn idx st dt dv).speed.mps idx bn.length)
        refine ⟨List.chain'_cons.mpr
          ⟨forwardStepNode_rel C seg bn idx st dt dv hdt hdv, hc⟩, ?_⟩
        rw [List.getLast?_cons_cons]
        exact hl
    · simp only [forwardSegLoop, if_neg h1]
      exact ⟨List.chain'_singleton st, rfl⟩

/-- Gluing lemma: a chain may be extended by a chain starting at its last
element. -/
theorem chain'_extend {α : Type} {R : α → α → Prop} {l₁ l₂ : List α} {m : α}
    (h₁ : List.Chain' R l₁) (hm : l₁.getLast? = some m)
    (h₂ : List.Chain' R (m :: l₂)) : List.Chain' R (l₁ ++ l₂) := by
  refine List.Chain'.append h₁ h₂.tail ?_
  intro x hx y hy
  rw [hm] at hx
  obtain rfl := (Option.mem_some_iff.mp hx)
  exact h₂.rel_head? hy

/-- The forward pass over all segments produces a `stepRel` chain from the
initial node. -/
theorem forwardAll_chain (C : Consts K) (bn : List (TimeNode K)) (stopSpeed dt dv : K)
    (hdt : 0 < dt) (hdv : 0 < dv) :
    ∀ (segs : List (Segment K)) (st : TimeNode K) (idx fuel : Nat),
      List.Chain' stepRel (st :: (forwardAll C bn stopSpeed dt dv segs st idx fuel).1) := by
  intro segs
  induction segs with
  | nil =>
    intro st idx fuel
    exact List.chain'_singleton st
  | cons seg rest ih =>
    intro st idx fuel
    obtain ⟨hc, hl⟩ := forwardSegLoop_chain C seg bn stopSpeed dt dv hdt hdv fuel st idx
    have hc2 := ih (forwardSegLoop C seg bn stopSpeed dt dv st idx fuel).2.1
      (forwardSegLoop C seg bn stopSpeed dt dv st idx fuel).2.2.1 fuel
    simp only [forwardAll]
    rw [← List.cons_append]
    exact chain'_extend hc hl hc2

/-- C6 (amended): every `time_nodes` sequence produced by `simulate_interval`
with positive `TIME_STEP`/`VELOCITY_STEP` is a `stepRel` chain — each node's
time exceeds its predecessor's by a positive effective timestep `d`, and its
dist is the predecessor's advanced by exactly `v·d + ½·acc·d²` — hence `time`
is non-decreasing step to step.  (`dist` is **not** non-decreasing in general:
the increment `v·d + ½·acc·d²` is negative at low speed under negative net
force, see the counterexample.) -/
theorem time_nodes_monotone (C : Consts K) (s : SSInterval K) (dt dv : K) (fuel : Nat)
    (hdt : 0 < dt) (hdv : 0 < dv) :
    List.Chain' stepRel (simulate_interval C s dt dv fuel).time_nodes ∧
    List.Chain' (fun a b => a.time ≤ b.time) (simulate_interval C s dt dv fuel).time_nodes := by
  have hchain : List.Chain' stepRel (simulate_interval C s dt dv fuel).time_nodes :=
    forwardAll_chain C (simulate_braking C s (-dt) dv fuel) s.stopSpeed.mps dt dv hdt hdv
      (padLast s.segments)
      { segment := s.segments.headD default, speed := s.startSpeed, soc := 100 } 0 fuel
  refine ⟨hchain, hchain.imp ?_⟩
  rintro a b ⟨d, hd, ht, -⟩
  rw [ht]
  linarith

/-- Witness for C6: the concrete simulated interval's `time_nodes` are
monotone in time. -/
theorem time_nodes_monotone_w :
    List.Chain' (fun a b : TimeNode ℚ => a.time ≤ b.time) intervalFlatSim.time_nodes :=
  (time_nodes_monotone Cq intervalFlat (1 / 10) 1000 100 (by norm_num) (by norm_num)).2

/-- Every element of `np.arange(lo, stop, step)` (positive `step`) lies in
`[lo, stop)`. -/
theorem arange_mem_bounds [FloorRing K] {lo stop step x : K} (hstep : 0 < step)
    (hx : x ∈ arange lo stop step) : lo ≤ x ∧ x < stop := by
  unfold arange at hx
  obtain ⟨i, hi, rfl⟩ := List.mem_map.1 hx
  rw [List.mem_range] at hi
  constructor
  · have h0 : (0 : K) ≤ (i : K) * step := by positivity
    linarith
  · have h1 : (i : ℤ) < max 0 ⌈(stop - lo) / step⌉ := Int.lt_toNat.mp hi
    have h2 : (i : ℤ) < ⌈(stop - lo) / step⌉ := by
      rcases le_or_lt ⌈(stop - lo) / step⌉ 0 with hc | hc
      · rw [max_eq_left hc] at h1
        exact absurd h1 (by exact_mod_cast Int.natCast_nonneg i |>.not_lt)
      · rwa [max_eq_right hc.le] at h1
    have h3 : (i : K) < (stop - lo) / step := by exact_mod_cast Int.lt_ceil.mp h2
    have h4 : (i : K) * step < stop - lo := (lt_div_iff₀ hstep).mp h3
    linarith

/-- In the zip of a list with its image, the second component is the image of
the first. -/
theorem mem_zip_map {α β : Type} (f : α → β) :
    ∀ (l : List α) (p : α × β), p ∈ l.zip (l.map f) → p.2 = f p.1 := by
  intro l
  induction l with
  | nil =>
    intro p hp
    simp [List.zip] at hp
  | cons a t ih =>
    intro p hp
    simp only [List.map_cons, List.zip_cons_cons, List.mem_cons] at hp
    rcases hp with rfl | hp
    · rfl
    · exact ih p hp

/-- C7 (amended): `build_bounds` returns, per segment, `(lo, hi)` with
`hi = min(v_max, speed_limit_kmph)` when the limit is positive (else `v_max`)
and `lo = min(v_min, hi)`; every entry of the corresponding `optimize_dp`
action grid lies in `[lo, hi + resolution/2)`.  In particular entries drop
below the global minimum `v_min` exactly when a segment's positive speed limit
is below it. -/
theorem bounds_action_grid_spec [FloorRing K] (segs : List (Segment K))
    (v_min v_max res : K) (hres : 0 < res) (hmm : v_min ≤ v_max) :
    (∀ p ∈ build_bounds segs v_min v_max, p.1 = min v_min p.2 ∧ p.2 ≤ v_max) ∧
    (∀ (seg : Segment K) (xs : List K),
      (seg, xs) ∈ segs.zip (per_seg_actions segs v_min v_max res) → ∀ x ∈ xs,
        (if seg.speed_limit.mps > 0 then min v_min (min v_max seg.speed_limit.kmph)
          else v_min) ≤ x ∧
        x < (if seg.speed_limit.mps > 0 then min v_max seg.speed_limit.kmph
          else v_max) + res * (1 / 2)) := by
  constructor
  · intro p hp
    rw [build_bounds] at hp
    simp only [List.mem_map] at hp
    obtain ⟨seg, -, rfl⟩ := hp
    split_ifs with hsl
    · exact ⟨rfl, min_le_left _ _⟩
    · exact ⟨(min_eq_left hmm).symm, le_refl _⟩
  · intro seg xs hmem x hx
    have hxs2 : xs = (if seg.speed_limit.mps > 0 then
        arange (min v_min (min v_max seg.speed_limit.kmph))
          (min v_max seg.speed_limit.kmph + res * (1 / 2)) res
      else arange v_min (v_max + res * (1 / 2)) res) := by
      have h := mem_zip_map
        (fun seg : Segment K =>
          if seg.speed_limit.mps > 0 then
            let hi := min v_max seg.speed_limit.kmph
            arange (min v_min hi) (hi + res * (1 / 2)) res
          else arange v_min (v_max + res * (1 / 2)) res)
        segs (seg, xs) hmem
      simpa using h
    by_cases hsl : seg.speed_limit.mps > 0
    · rw [hxs2, if_pos hsl] at hx
      have hb := arange_mem_bounds hres hx
      simp only [if_pos hsl]
      exact hb
    · rw [hxs2, if_neg hsl] at hx
      have hb := arange_mem_bounds hres hx
      simp only [if_neg hsl]
      exact hb

set_option maxHeartbeats 1000000 in
/-- Witness for C7 at the 10 km/h-limit segment: the accepted grid entry 10
lies within the corrected bounds (but below `v_min = 20`). -/
theorem bounds_action_grid_spec_w :
    (if segLim10.speed_limit.mps > 0 then min (20 : ℚ) (min 100 segLim10.speed_limit.kmph)
      else 20) ≤ 10 ∧
    (10 : ℚ) < (if segLim10.speed_limit.mps > 0 then min (100 : ℚ) segLim10.speed_limit.kmph
      else 100) + 2 * (1 / 2) :=
  (bounds_action_grid_spec [segLim10] 20 100 2 (by norm_num) (by norm_num)).2
    segLim10 [10] (by decide) 10 (by decide)

/-- One stall-input step of `simSingleLoop`: with 20 N of motor force against
1000 N of rolling resistance at rest, the computed step has acceleration
−9.8 m/s², timestep 1 s, and a backward displacement of 4.9 m. -/
theorem singleSegCalc_stall (d : ℝ) :
    singleSegCalc C2c seg2c 10 0 1 1000 0 d
      = { torque := 20, Fm := 20, Fd := 0, Frr := 1000, Fg := 0, Ft := -980,
          acc := -49 / 5, dtNominal := 1, dtEff := 1,
          newSpeed := -49 / 5, newDist := d - 49 / 10 } := by
  have habs : |(49 : ℝ) / 5| = 49 / 5 := abs_of_pos (by norm_num)
  norm_num [singleSegCalc, C2c, seg2c, MAX_TORQUE, abs_le, habs]
  ring

/-- At the stall input, the loop runs forever (one second per fuel unit) with
speed pinned at 0 and distance drifting backward, never taking the stall
return. -/
theorem simSingleLoop_stall_aux :
    ∀ (n : Nat) (d t e : ℝ), d ≤ 0 →
      simSingleLoop C2c seg2c 10 0 1 1000 ⟨0, d, t, e⟩ n = (0, t + n, e) := by
  intro n
  induction n with
  | zero =>
    intro d t e hd
    simp [simSingleLoop]
  | succ k ih =>
    intro d t e hd
    have hnd : ¬ ((⟨0, d, t, e⟩ : SingleState).dist ≥ seg2c.dist) := by
      show ¬ (d ≥ seg2c.dist)
      norm_num [seg2c]
      linarith
    rw [simSingleLoop, if_neg hnd]
    rw [show (⟨0, d, t, e⟩ : SingleState).speed = 0 from rfl,
      show (⟨0, d, t, e⟩ : SingleState).dist = d from rfl,
      show (⟨0, d, t, e⟩ : SingleState).elapsed = t from rfl,
      show (⟨0, d, t, e⟩ : SingleState).energy = e from rfl,
      singleSegCalc_stall d]
    have hsc : MAX_TORQUE ℝ / C2c.wheel_radius * C2c.num_motors = 20 := by
      norm_num [MAX_TORQUE, C2c]
    norm_num [hsc]
    rw [ih (d - 49 / 10) (t + 1) e (by linarith)]
    ring_nf

/-- C2: on a stall input — flat 50 m segment, rolling resistance 1000 N
against a maximum motor force of 20 N, entry at rest — `simulate_single_segment`
(with motor model denying the cruise speed, so `t_eff = 0`) never takes its
stall return, because that check compares the motor force against the grade
force alone: it consumes its entire iteration budget `n` at one second per
step and returns the ordinary tuple `(0 speed, n seconds, 0 energy)` — zero
forward progress presented as a normal result, not a distinct condition. -/
theorem single_segment_stall_missed (n : Nat) :
    simulate_single_segment C2c (fun _ => 0) seg2c 0 36 1 1000 n = (0, (n : ℝ), 0) := by
  have hrun := simSingleLoop_stall_aux n 0 0 0 le_rfl
  unfold simulate_single_segment
  norm_num [solve_velocity, Fd_calc_def, Fg_calc_def, Frr_calc_def,
    Vec.sub, Vec.magSq, seg2c, C2c]
  simpa using hrun

/-- `solve_TimeNode` keeps the control node's torque. -/
theorem solve_TimeNode_torque (C : Consts K) (n initial : TimeNode K) (dt : K) :
    (solve_TimeNode C n initial dt).torque = n.torque := by
  simp [solve_TimeNode, Fm_calc_def, Fd_calc_def, Frr_calc_def, Fg_calc_def, Ft_calc_def,
    solar_energy_cal_def, Power_calc_def]

/-- `solve_TimeNode` keeps the control node's braking force. -/
theorem solve_TimeNode_Fb (C : Consts K) (n initial : TimeNode K) (dt : K) :
    (solve_TimeNode C n initial dt).Fb = n.Fb := by
  simp [solve_TimeNode, Fm_calc_def, Fd_calc_def, Frr_calc_def, Fg_calc_def, Ft_calc_def,
    solar_energy_cal_def, Power_calc_def]

/-- The motor force computed by `solve_TimeNode` (`Fm_calc`): torque over
wheel radius, with no motor-count factor. -/
theorem solve_TimeNode_Fm (C : Consts K) (n initial : TimeNode K) (dt : K) :
    (solve_TimeNode C n initial dt).Fm = n.torque / C.wheel_radius := by
  simp [solve_TimeNode, Fm_calc_def, Fd_calc_def, Frr_calc_def, Fg_calc_def, Ft_calc_def,
    solar_energy_cal_def, Power_calc_def]

/-- The drag force computed by `solve_TimeNode` (`Fd_calc`): wind-relative. -/
theorem solve_TimeNode_Fd (C : Consts K) (n initial : TimeNode K) (dt : K) :
    (solve_TimeNode C n initial dt).Fd
      = 1 / 2 * C.air_density * C.coef_drag * C.cross_section *
        ((Vec.sub ⟨n.segment.ux * initial.speed.mps, n.segment.uy * initial.speed.mps⟩
          n.segment.wind).magSq) := by
  simp [solve_TimeNode, Fm_calc_def, Fd_calc_def, Frr_calc_def, Fg_calc_def, Ft_calc_def,
    solar_energy_cal_def, Power_calc_def]

/-- The rolling-resistance force computed by `solve_TimeNode` (`Frr_calc`). -/
theorem solve_TimeNode_Frr (C : Consts K) (n initial : TimeNode K) (dt : K) :
    (solve_TimeNode C n initial dt).Frr
      = C.coef_rr * C.car_mass * C.accel_g * n.segment.gradCos := by
  simp [solve_TimeNode, Fm_calc_def, Fd_calc_def, Frr_calc_def, Fg_calc_def, Ft_calc_def,
    solar_energy_cal_def, Power_calc_def]

/-- The grade force computed by `solve_TimeNode` (`Fg_calc`). -/
theorem solve_TimeNode_Fg (C : Consts K) (n initial : TimeNode K) (dt : K) :
    (solve_TimeNode C n initial dt).Fg = C.car_mass * C.accel_g * n.segment.gradSin := by
  simp [solve_TimeNode, Fm_calc_def, Fd_calc_def, Frr_calc_def, Fg_calc_def, Ft_calc_def,
    solar_energy_cal_def, Power_calc_def]

/-- The net force computed by `solve_TimeNode` (`Ft_calc`). -/
theorem solve_TimeNode_Ft (C : Consts K) (n initial : TimeNode K) (dt : K) :
    (solve_TimeNode C n initial dt).Ft
      = (solve_TimeNode C n initial dt).Fm - (solve_TimeNode C n initial dt).Fd
        - (solve_TimeNode C n initial dt).Frr - (solve_TimeNode C n initial dt).Fg
        - n.Fb := by
  simp [solve_TimeNode, Fm_calc_def, Fd_calc_def, Frr_calc_def, Fg_calc_def, Ft_calc_def,
    solar_energy_cal_def, Power_calc_def]

/-- The acceleration computed by `solve_TimeNode`: net force over mass. -/
theorem solve_TimeNode_acc (C : Consts K) (n initial : TimeNode K) (dt : K) :
    (solve_TimeNode C n initial dt).acc = (solve_TimeNode C n initial dt).Ft / C.car_mass := by
  simp [solve_TimeNode, Fm_calc_def, Fd_calc_def, Frr_calc_def, Fg_calc_def, Ft_calc_def,
    solar_energy_cal_def, Power_calc_def]

/-- The acceleration computed by `solve_TimeNode` does not depend on the
timestep (forces are recomputed from the predecessor's speed only). -/
theorem solve_TimeNode_acc_eq (C : Consts K) (n initial : TimeNode K) (dt dt' : K) :
    (solve_TimeNode C n initial dt).acc = (solve_TimeNode C n initial dt').acc := by
  simp [solve_TimeNode, Fm_calc_def, Fd_calc_def, Frr_calc_def, Fg_calc_def, Ft_calc_def,
    solar_energy_cal_def, Power_calc_def]

/-- The speed update of `solve_TimeNode`: `initial speed + acc·dt`. -/
theorem solve_TimeNode_speed (C : Consts K) (n initial : TimeNode K) (dt : K) :
    (solve_TimeNode C n initial dt).speed.mps
      = initial.speed.mps + (solve_TimeNode C n initial dt).acc * dt := by
  simp [solve_TimeNode, Fm_calc_def, Fd_calc_def, Frr_calc_def, Fg_calc_def, Ft_calc_def,
    solar_energy_cal_def, Power_calc_def]

/-- The control node's segment is the current segment in every branch. -/
theorem forwardControl_segment (seg : Segment K) (bn : List (TimeNode K)) (idx : Nat)
    (st : TimeNode K) (dt : K) : (forwardControl seg bn idx st dt).segment = seg := by
  unfold forwardControl
  split_ifs <;> rfl

/-- When the braking envelope is not yet reached, the control node carries no
braking force. -/
theorem forwardControl_Fb_nb (seg : Segment K) (bn : List (TimeNode K)) (idx : Nat)
    (st : TimeNode K) (dt : K) (hnb : ¬ st.dist ≥ (bn.getD idx default).dist) :
    (forwardControl seg bn idx st dt).Fb = 0 := by
  unfold forwardControl
  rw [if_neg hnb]
  split_ifs <;> rfl

/-- When the braking envelope is not yet reached, the control law chooses
`MAX_TORQUE` below the cruise target and the cruise torque `t_eff` at or above
it. -/
theorem forwardControl_torque_nb (seg : Segment K) (bn : List (TimeNode K)) (idx : Nat)
    (st : TimeNode K) (dt : K) (hnb : ¬ st.dist ≥ (bn.getD idx default).dist) :
    (forwardControl seg bn idx st dt).torque
      = if st.speed.mps < seg.v_eff.mps then MAX_TORQUE K else seg.t_eff := by
  unfold forwardControl
  rw [if_neg hnb]
  split_ifs <;> rfl

/-- Unfolding equation for `forwardStepNode`. -/
theorem forwardStepNode_def (C : Consts K) (seg : Segment K) (bn : List (TimeNode K))
    (idx : Nat) (st : TimeNode K) (dt dv : K) :
    forwardStepNode C seg bn idx st dt dv =
      if |(solve_TimeNode C (forwardControl seg bn idx st dt) st dt).acc * dt| > dv then
        { solve_TimeNode C (forwardControl seg bn idx st dt) st
            (|dv / (solve_TimeNode C (forwardControl seg bn idx st dt) st dt).acc|) with
          time := st.time
            + |dv / (solve_TimeNode C (forwardControl seg bn idx st dt) st dt).acc| }
      else solve_TimeNode C (forwardControl seg bn idx st dt) st dt := rfl

/-- The control torque of `simulate_single_segment`'s loop body. -/
theorem singleSegCalc_torque (C : Consts ℝ) (seg : Segment ℝ)
    (target t_eff dt_base dv_max speed dist : ℝ) :
    (singleSegCalc C seg target t_eff dt_base dv_max speed dist).torque
      = if speed < target then MAX_TORQUE ℝ else t_eff := by
  simp [singleSegCalc]

/-- The motor force of `simulate_single_segment`'s loop body: torque over
wheel radius, **scaled by `num_motors`**. -/
theorem singleSegCalc_Fm (C : Consts ℝ) (seg : Segment ℝ)
    (target t_eff dt_base dv_max speed dist : ℝ) :
    (singleSegCalc C seg target t_eff dt_base dv_max speed dist).Fm
      = (singleSegCalc C seg target t_eff dt_base dv_max speed dist).torque
        / C.wheel_radius * C.num_motors := by
  simp [singleSegCalc]

/-- The drag force of `simulate_single_segment`'s loop body: wind-free
`drag_coeff · v²`. -/
theorem singleSegCalc_Fd (C : Consts ℝ) (seg : Segment ℝ)
    (target t_eff dt_base dv_max speed dist : ℝ) :
    (singleSegCalc C seg target t_eff dt_base dv_max speed dist).Fd
      = 1 / 2 * C.air_density * C.coef_drag * C.cross_section * speed * speed := by
  simp [singleSegCalc]

/-- The rolling-resistance force of `simulate_single_segment`'s loop body. -/
theorem singleSegCalc_Frr (C : Consts ℝ) (seg : Segment ℝ)
    (target t_eff dt_base dv_max speed dist : ℝ) :
    (singleSegCalc C seg target t_eff dt_base dv_max speed dist).Frr
      = C.coef_rr * C.car_mass * C.accel_g * seg.gradCos := by
  simp [singleSegCalc]

/-- The grade force of `simulate_single_segment`'s loop body. -/
theorem singleSegCalc_Fg (C : Consts ℝ) (seg : Segment ℝ)
    (target t_eff dt_base dv_max speed dist : ℝ) :
    (singleSegCalc C seg target t_eff dt_base dv_max speed dist).Fg
      = C.car_mass * C.accel_g * seg.gradSin := by
  simp [singleSegCalc]

/-- The net force of `simulate_single_segment`'s loop body (no braking
term). -/
theorem singleSegCalc_Ft (C : Consts ℝ) (seg : Segment ℝ)
    (target t_eff dt_base dv_max speed dist : ℝ) :
    (singleSegCalc C seg target t_eff dt_base dv_max speed dist).Ft
      = (singleSegCalc C seg target t_eff dt_base dv_max speed dist).Fm
        - (singleSegCalc C seg target t_eff dt_base dv_max speed dist).Fd
        - (singleSegCalc C seg target t_eff dt_base dv_max speed dist).Frr
        - (singleSegCalc C seg target t_eff dt_base dv_max speed dist).Fg := by
  simp [singleSegCalc]

/-- The acceleration of `simulate_single_segment`'s loop body. -/
theorem singleSegCalc_acc (C : Consts ℝ) (seg : Segment ℝ)
    (target t_eff dt_base dv_max speed dist : ℝ) :
    (singleSegCalc C seg target t_eff dt_base dv_max speed dist).acc
      = (singleSegCalc C seg target t_eff dt_base dv_max speed dist).Ft / C.car_mass := by
  simp [singleSegCalc]

/-- The adaptive timestep of `simulate_single_segment`'s loop body. -/
theorem singleSegCalc_dtNominal (C : Consts ℝ) (seg : Segment ℝ)
    (target t_eff dt_base dv_max speed dist : ℝ) :
    (singleSegCalc C seg target t_eff dt_base dv_max speed dist).dtNominal
      = if (singleSegCalc C seg target t_eff dt_base dv_max speed dist).acc ≠ 0 ∧
            |(singleSegCalc C seg target t_eff dt_base dv_max speed dist).acc * dt_base|
              > dv_max then
          |dv_max / (singleSegCalc C seg target t_eff dt_base dv_max speed dist).acc|
        else dt_base := by
  simp [singleSegCalc]

/-- When the nominal step does not overshoot the segment boundary (or the
speed is non-positive), the boundary clamp leaves the timestep alone. -/
theorem singleSegCalc_dtEff_no_clamp (C : Consts ℝ) (seg : Segment ℝ)
    (target t_eff dt_base dv_max speed dist : ℝ)
    (h : ¬ (speed * (singleSegCalc C seg target t_eff dt_base dv_max speed dist).dtNominal
        + 1 / 2 * (singleSegCalc C seg target t_eff dt_base dv_max speed dist).acc
          * (singleSegCalc C seg target t_eff dt_base dv_max speed dist).dtNominal ^ 2
        > seg.dist - dist ∧ speed > 0)) :
    (singleSegCalc C seg target t_eff dt_base dv_max speed dist).dtEff
      = (singleSegCalc C seg target t_eff dt_base dv_max speed dist).dtNominal := by
  simp only [singleSegCalc] at h ⊢
  rw [if_neg h]

/-- The speed update of `simulate_single_segment`'s loop body. -/
theorem singleSegCalc_newSpeed (C : Consts ℝ) (seg : Segment ℝ)
    (target t_eff dt_base dv_max speed dist : ℝ) :
    (singleSegCalc C seg target t_eff dt_base dv_max speed dist).newSpeed
      = speed + (singleSegCalc C seg target t_eff dt_base dv_max speed dist).acc
        * (singleSegCalc C seg target t_eff dt_base dv_max speed dist).dtEff := by
  simp [singleSegCalc]

/-- The distance update of `simulate_single_segment`'s loop body. -/
theorem singleSegCalc_newDist (C : Consts ℝ) (seg : Segment ℝ)
    (target t_eff dt_base dv_max speed dist : ℝ) :
    (singleSegCalc C seg target t_eff dt_base dv_max speed dist).newDist
      = dist + speed * (singleSegCalc C seg target t_eff dt_base dv_max speed dist).dtEff
        + 1 / 2 * (singleSegCalc C seg target t_eff dt_base dv_max speed dist).acc
          * (singleSegCalc C seg target t_eff dt_base dv_max speed dist).dtEff ^ 2 := by
  simp [singleSegCalc]

/-- C3 (amended): an integration step of the DP precompute integrator
`simulate_single_segment` computes the same forces (motor, drag, rolling
resistance, grade), the same acceleration, and the same time/speed/distance
updates as a forward step of `SSInterval.simulate_interval` (via
`TimeNode.solve_TimeNode`) **provided**: `num_motors = 1` (the single-segment
integrator scales motor force by the motor count, `Fm_calc` does not), the
segment's wind is zero (the single-segment drag ignores wind), the braking
branch of the forward control law is inactive, and the nominal step does not
trigger the single-segment integrator's segment-boundary clamp (absent from
the interval simulator).  `c` is the single-segment step computed at the same
entry speed, cruise target, cruise torque and timestep parameters. -/
theorem single_segment_step_matches_forward (C : Consts ℝ) (seg : Segment ℝ)
    (bn : List (TimeNode ℝ)) (idx : Nat) (st : TimeNode ℝ) (dt dv ds : ℝ)
    (c : StepCalc ℝ)
    (hc : c = singleSegCalc C seg seg.v_eff.mps seg.t_eff dt dv st.speed.mps ds)
    (hm : C.num_motors = 1) (hw : seg.wind = ⟨0, 0⟩) (hu : seg.ux ^ 2 + seg.uy ^ 2 = 1)
    (hdv : 0 < dv) (hnb : ¬ st.dist ≥ (bn.getD idx default).dist)
    (hnc : ¬ (st.speed.mps * c.dtNominal + 1 / 2 * c.acc * c.dtNominal ^ 2
        > seg.dist - ds ∧ st.speed.mps > 0)) :
    (forwardStepNode C seg bn idx st dt dv).torque = c.torque ∧
    (forwardStepNode C seg bn idx st dt dv).Fm = c.Fm ∧
    (forwardStepNode C seg bn idx st dt dv).Fd = c.Fd ∧
    (forwardStepNode C seg bn idx st dt dv).Frr = c.Frr ∧
    (forwardStepNode C seg bn idx st dt dv).Fg = c.Fg ∧
    (forwardStepNode C seg bn idx st dt dv).Ft = c.Ft ∧
    (forwardStepNode C seg bn idx st dt dv).acc = c.acc ∧
    (forwardStepNode C seg bn idx st dt dv).time = st.time + c.dtEff ∧
    (forwardStepNode C seg bn idx st dt dv).speed.mps = st.speed.mps + c.acc * c.dtEff ∧
    (forwardStepNode C seg bn idx st dt dv).dist
      = st.dist + st.speed.mps * c.dtEff + 1 / 2 * c.acc * c.dtEff ^ 2 := by
  subst hc
  -- the forces of the solved forward node agree with the single-segment step
  have hT : ∀ dt' : ℝ,
      (solve_TimeNode C (forwardControl seg bn idx st dt) st dt').torque
        = (singleSegCalc C seg seg.v_eff.mps seg.t_eff dt dv st.speed.mps ds).torque := by
    intro dt'
    rw [solve_TimeNode_torque, forwardControl_torque_nb seg bn idx st dt hnb,
      singleSegCalc_torque]
  have hFm : ∀ dt' : ℝ,
      (solve_TimeNode C (forwardControl seg bn idx st dt) st dt').Fm
        = (singleSegCalc C seg seg.v_eff.mps seg.t_eff dt dv st.speed.mps ds).Fm := by
    intro dt'
    rw [solve_TimeNode_Fm, singleSegCalc_Fm, singleSegCalc_torque, hm,
      ← forwardControl_torque_nb seg bn idx st dt hnb]
    ring
  have hFd : ∀ dt' : ℝ,
      (solve_TimeNode C (forwardControl seg bn idx st dt) st dt').Fd
        = (singleSegCalc C seg seg.v_eff.mps seg.t_eff dt dv st.speed.mps ds).Fd := by
    intro dt'
    rw [solve_TimeNode_Fd, singleSegCalc_Fd, forwardControl_segment, hw]
    simp only [Vec.sub, Vec.magSq]
    linear_combination (1 / 2 * C.air_density * C.coef_drag * C.cross_section
      * st.speed.mps ^ 2) * hu
  have hFrr : ∀ dt' : ℝ,
      (solve_TimeNode C (forwardControl seg bn idx st dt) st dt').Frr
        = (singleSegCalc C seg seg.v_eff.mps seg.t_eff dt dv st.speed.mps ds).Frr := by
    intro dt'
    rw [solve_TimeNode_Frr, singleSegCalc_Frr, forwardControl_segment]
  have hFg : ∀ dt' : ℝ,
      (solve_TimeNode C (forwardControl seg bn idx st dt) st dt').Fg
        = (singleSegCalc C seg seg.v_eff.mps seg.t_eff dt dv st.speed.mps ds).Fg := by
    intro dt'
    rw [solve_TimeNode_Fg, singleSegCalc_Fg, forwardControl_segment]
  have hFt : ∀ dt' : ℝ,
      (solve_TimeNode C (forwardControl seg bn idx st dt) st dt').Ft
        = (singleSegCalc C seg seg.v_eff.mps seg.t_eff dt dv st.speed.mps ds).Ft := by
    intro dt'
    rw [solve_TimeNode_Ft, singleSegCalc_Ft, hFm dt', hFd dt', hFrr dt', hFg dt',
      forwardControl_Fb_nb seg bn idx st dt hnb]
    ring
  have hacc : ∀ dt' : ℝ,
      (solve_TimeNode C (forwardControl seg bn idx st dt) st dt').acc
        = (singleSegCalc C seg seg.v_eff.mps seg.t_eff dt dv st.speed.mps ds).acc := by
    intro dt'
    rw [solve_TimeNode_acc, singleSegCalc_acc, hFt dt']
  have hdtEff := singleSegCalc_dtEff_no_clamp C seg seg.v_eff.mps seg.t_eff dt dv
    st.speed.mps ds hnc
  rw [forwardStepNode_def]
  by_cases hA : |(solve_TimeNode C (forwardControl seg bn idx st dt) st dt).acc * dt| > dv
  · rw [if_pos hA]
    have hane : (singleSegCalc C seg seg.v_eff.mps seg.t_eff dt dv st.speed.mps ds).acc
        ≠ 0 := by
      intro h0
      rw [hacc dt, h0, zero_mul, abs_zero] at hA
      exact absurd hA (not_lt.mpr hdv.le)
    have hdtN : (singleSegCalc C seg seg.v_eff.mps seg.t_eff dt dv st.speed.mps ds).dtNominal
        = |dv / (singleSegCalc C seg seg.v_eff.mps seg.t_eff dt dv st.speed.mps ds).acc| := by
      rw [singleSegCalc_dtNominal, if_pos]
      exact ⟨hane, by rw [← hacc dt]; exact hA⟩
    have hdtv : (singleSegCalc C seg seg.v_eff.mps seg.t_eff dt dv st.speed.mps ds).dtEff
        = |dv / (singleSegCalc C seg seg.v_eff.mps seg.t_eff dt dv st.speed.mps ds).acc| := by
      rw [hdtEff, hdtN]
    rw [hacc dt]
    refine
      ⟨hT (|dv / (singleSegCalc C seg seg.v_eff.mps seg.t_eff dt dv st.speed.mps ds).acc|),
      hFm (|dv / (singleSegCalc C seg seg.v_eff.mps seg.t_eff dt dv st.speed.mps ds).acc|),
      hFd (|dv / (singleSegCalc C seg seg.v_eff.mps seg.t_eff dt dv st.speed.mps ds).acc|),
      hFrr (|dv / (singleSegCalc C seg seg.v_eff.mps seg.t_eff dt dv st.speed.mps ds).acc|),
      hFg (|dv / (singleSegCalc C seg seg.v_eff.mps seg.t_eff dt dv st.speed.mps ds).acc|),
      hFt (|dv / (singleSegCalc C seg seg.v_eff.mps seg.t_eff dt dv st.speed.mps ds).acc|),
      hacc (|dv / (singleSegCalc C seg seg.v_eff.mps seg.t_eff dt dv st.speed.mps ds).acc|),
      ?_, ?_, ?_⟩
    · show st.time + _ = st.time + _
      rw [hdtv]
    · show (solve_TimeNode C (forwardControl seg bn idx st dt) st
        (|dv / (singleSegCalc C seg seg.v_eff.mps seg.t_eff dt dv st.speed.mps ds).acc|)).speed.mps
          = _
      rw [solve_TimeNode_speed, hacc, hdtv]
    · show (solve_TimeNode C (forwardControl seg bn idx st dt) st
        (|dv / (singleSegCalc C seg seg.v_eff.mps seg.t_eff dt dv st.speed.mps ds).acc|)).dist
          = _
      rw [solve_TimeNode_dist, hacc, hdtv]
  · rw [if_neg hA]
    have hdtN : (singleSegCalc C seg seg.v_eff.mps seg.t_eff dt dv st.speed.mps ds).dtNominal
        = dt := by
      rw [singleSegCalc_dtNominal, if_neg]
      rintro ⟨-, habs⟩
      rw [← hacc dt] at habs
      exact hA habs
    have hdtv : (singleSegCalc C seg seg.v_eff.mps seg.t_eff dt dv st.speed.mps ds).dtEff
        = dt := by rw [hdtEff, hdtN]
    refine ⟨hT _, hFm _, hFd _, hFrr _, hFg _, hFt _, hacc _, ?_, ?_, ?_⟩
    · rw [solve_TimeNode_time, forwardControl_time, hdtv]
    · rw [solve_TimeNode_speed, hacc, hdtv]
    · rw [solve_TimeNode_dist, hacc, hdtv]

/-- C3 counterexample: on a segment with a 1 m/s wind at 2 m/s entry speed
(drag coefficient `½ρCdA = 1`), the forward pass computes the wind-relative
drag 1 N while `simulate_single_segment` computes the wind-free drag 4 N: the
two integrators do **not** compute the same forces on every segment. -/
theorem single_segment_step_claim_cx :
    (forwardStepNode CR segWind bnFar 0 stC3 1 1000).Fd = 1 ∧
    (singleSegCalc CR segWind segWind.v_eff.mps segWind.t_eff 1 1000 stC3.speed.mps 0).Fd = 4 ∧
    (forwardStepNode CR segWind bnFar 0 stC3 1 1000).Fd
      ≠ (singleSegCalc CR segWind segWind.v_eff.mps segWind.t_eff 1 1000 stC3.speed.mps 0).Fd := by
  have hnb : ¬ stC3.dist ≥ (bnFar.getD 0 default).dist := by
    norm_num [stC3, bnFar]
  have hacc : (solve_TimeNode CR (forwardControl segWind bnFar 0 stC3 1) stC3 1).acc
      = 19 / 1000 := by
    rw [solve_TimeNode_acc, solve_TimeNode_Ft, solve_TimeNode_Fm, solve_TimeNode_Fd,
      solve_TimeNode_Frr, solve_TimeNode_Fg, forwardControl_segment,
      forwardControl_torque_nb segWind bnFar 0 stC3 1 hnb,
      forwardControl_Fb_nb segWind bnFar 0 stC3 1 hnb]
    norm_num [CR, segWind, stC3, MAX_TORQUE, Vec.sub, Vec.magSq]
  have hA : ¬ |(solve_TimeNode CR (forwardControl segWind bnFar 0 stC3 1) stC3 1).acc * 1|
      > (1000 : ℝ) := by
    rw [hacc]
    norm_num [abs_le]
  have hfd : (forwardStepNode CR segWind bnFar 0 stC3 1 1000).Fd = 1 := by
    rw [forwardStepNode_def, if_neg hA, solve_TimeNode_Fd, forwardControl_segment]
    norm_num [CR, segWind, stC3, Vec.sub, Vec.magSq]
  have hsd : (singleSegCalc CR segWind segWind.v_eff.mps segWind.t_eff 1 1000
      stC3.speed.mps 0).Fd = 4 := by
    rw [singleSegCalc_Fd]
    norm_num [CR, stC3]
  refine ⟨hfd, hsd, ?_⟩
  rw [hfd, hsd]
  norm_num

/-- Witness for C3: with no wind, one motor, no braking and no boundary clamp
(2 m/s entry, 10 m/s target, flat 100 m segment), the two integrators compute
the same acceleration. -/
theorem single_segment_step_matches_forward_w :
    (forwardStepNode CR0 segNoWind bnFar 0 stC3 1 1000).acc
      = (singleSegCalc CR0 segNoWind segNoWind.v_eff.mps segNoWind.t_eff 1 1000
          stC3.speed.mps 0).acc := by
  have hacc : (singleSegCalc CR0 segNoWind segNoWind.v_eff.mps segNoWind.t_eff 1 1000
      stC3.speed.mps 0).acc = 1 / 50 := by
    rw [singleSegCalc_acc, singleSegCalc_Ft, singleSegCalc_Fm, singleSegCalc_torque,
      singleSegCalc_Fd, singleSegCalc_Frr, singleSegCalc_Fg]
    norm_num [CR0, segNoWind, stC3, MAX_TORQUE]
  have hdtN : (singleSegCalc CR0 segNoWind segNoWind.v_eff.mps segNoWind.t_eff 1 1000
      stC3.speed.mps 0).dtNominal = 1 := by
    rw [singleSegCalc_dtNominal, hacc]
    norm_num [abs_le]
  have h := single_segment_step_matches_forward CR0 segNoWind bnFar 0 stC3 1 1000 0
    (singleSegCalc CR0 segNoWind segNoWind.v_eff.mps segNoWind.t_eff 1 1000 stC3.speed.mps 0)
    rfl rfl rfl (by norm_num [segNoWind]) (by norm_num)
    (by norm_num [stC3, bnFar])
    (by
      rw [hacc, hdtN]
      norm_num [segNoWind, stC3])
  exact h.2.2.2.2.2.2.1

end ConcreteEvaluation

end RaceStrategies
